import Mathlib

/-!
Shallow embedding of the openrouter-image-mcp core: the MIME sniffer and
image normalizer (`src/utils/image-processor.ts`), the OpenRouter adapter
(`src/utils/openrouter-client.ts`, the variant with preflight validation),
and the tool dispatch handler (`src/tools/analyze-image.ts`).

Modelling conventions:
- Byte buffers are `List Nat` (each entry a byte value; theorems that need
  it carry an explicit `< 256` hypothesis).
- JavaScript strings are Lean `String`s; `.length` is modelled by Lean's
  character count (the inputs involved are ASCII).
- `async` I/O (file read, HTTP GET/POST) is modelled by passing the
  operation's outcome in as an argument, so each function is a pure map
  from its inputs and the external world's answers to its result.
- A thrown JS `Error` caught at a boundary is an `Except.error` carrying
  the message the boundary produces; total functions model the "never
  throws past its boundary" contracts.
- JS truthiness defaults (`x || d`) are modelled by the `jsOr*` helpers
  (`0`, `""`, `undefined` are falsy).
- The `sharp` image library and the `JSON.parse`/`JSON.stringify`
  builtins are external to the repository; they enter as function
  parameters (`sharpFormat`, `jp`, `pp`).  Concrete executable models of
  the JSON builtins are provided for witness evaluation only.
-/

/-- Node's legacy ascii decoding clears the high bit of every byte before
reading it as a character (`buffer.toString('ascii')`). -/
def asciiByte (b : Nat) : Nat := b % 128

/-- Embeds `ImageProcessor.detectFromSignature`: magic-byte sniffing on the
first 4 bytes, with the WEBP tag read from bytes 8-11 via ascii decoding.
The source compares the hex rendering of the first four bytes with
`startsWith`, which is equivalent to comparing byte prefixes. -/
def detectFromSignature (buffer : List Nat) : String :=
  if buffer.length < 4 then "application/octet-stream"
  else
    let s0 := buffer.getD 0 0
    let s1 := buffer.getD 1 0
    let s2 := buffer.getD 2 0
    let s3 := buffer.getD 3 0
    if s0 = 0xff ∧ s1 = 0xd8 ∧ s2 = 0xff then "image/jpeg"
    else if s0 = 0x89 ∧ s1 = 0x50 ∧ s2 = 0x4e ∧ s3 = 0x47 then "image/png"
    else if s0 = 0x47 ∧ s1 = 0x49 ∧ s2 = 0x46 ∧ s3 = 0x38 then "image/gif"
    else if s0 = 0x52 ∧ s1 = 0x49 ∧ s2 = 0x46 ∧ s3 = 0x46 ∧ 12 < buffer.length then
      if ((buffer.drop 8).take 4).map asciiByte = [0x57, 0x45, 0x42, 0x50] then "image/webp"
      else "application/octet-stream"
    else "application/octet-stream"

/-- Spec-side restatement of the sniffer, written from the amended claim C1:
first match wins among JPEG/PNG/GIF/WEBP signatures, where WEBP additionally
requires at least 13 bytes and reads offsets 8-11 through ascii decoding;
buffers shorter than 4 bytes and unmatched buffers give the octet-stream
fallback. -/
def sniffSpec (buffer : List Nat) : String :=
  if buffer.length < 4 then "application/octet-stream"
  else if buffer.take 3 = [0xff, 0xd8, 0xff] then "image/jpeg"
  else if buffer.take 4 = [0x89, 0x50, 0x4e, 0x47] then "image/png"
  else if buffer.take 4 = [0x47, 0x49, 0x46, 0x38] then "image/gif"
  else if buffer.take 4 = [0x52, 0x49, 0x46, 0x46] ∧ 13 ≤ buffer.length ∧
          ((buffer.drop 8).take 4).map asciiByte = [0x57, 0x45, 0x42, 0x50] then "image/webp"
  else "application/octet-stream"

/-- Value of a base64 alphabet character (Node accepts both the standard and
the URL-safe alphabet); `none` for every other character, which Node's
forgiving decoder skips. -/
def b64CharVal (c : Char) : Option Nat :=
  if 'A' ≤ c ∧ c ≤ 'Z' then some (c.toNat - 65)
  else if 'a' ≤ c ∧ c ≤ 'z' then some (c.toNat - 97 + 26)
  else if '0' ≤ c ∧ c ≤ '9' then some (c.toNat - 48 + 52)
  else if c = '+' ∨ c = '-' then some 62
  else if c = '/' ∨ c = '_' then some 63
  else none

/-- Character of a 6-bit value in the standard base64 alphabet. -/
def b64CharOfVal (n : Nat) : Char :=
  "ABCDEFGHIJKLMNOPQRSTUVWXYZabcdefghijklmnopqrstuvwxyz0123456789+/".data.getD n 'A'

/-- Regroup a list of 6-bit values into bytes: 4 sextets give 3 bytes, a
trailing 2 or 3 sextets give 1 or 2 bytes, a lone trailing sextet gives
nothing. -/
def b64DecodeSextets : List Nat → List Nat
  | a :: b :: c :: d :: rest =>
      (a * 4 + b / 16) :: (b % 16 * 16 + c / 4) :: (c % 4 * 64 + d) :: b64DecodeSextets rest
  | [a, b] => [a * 4 + b / 16]
  | [a, b, c] => [a * 4 + b / 16, b % 16 * 16 + c / 4]
  | _ => []

/-- Embeds `Buffer.from(s, 'base64')`: non-alphabet characters (including
`=` padding) are skipped and the 6-bit values are regrouped into bytes.
The decoder is total; the `try/catch` around it in the source is dead. -/
def base64Decode (s : String) : List Nat :=
  b64DecodeSextets (s.data.filterMap b64CharVal)

/-- Encode three-byte groups into four base64 characters with `=` padding,
as `buffer.toString('base64')` does. -/
def b64EncodeBytes : List Nat → List Char
  | [] => []
  | [x] => [b64CharOfVal (x / 4), b64CharOfVal (x % 4 * 16), '=', '=']
  | [x, y] => [b64CharOfVal (x / 4), b64CharOfVal (x % 4 * 16 + y / 16),
               b64CharOfVal (y % 16 * 4), '=']
  | x :: y :: z :: rest =>
      b64CharOfVal (x / 4) :: b64CharOfVal (x % 4 * 16 + y / 16) ::
      b64CharOfVal (y % 16 * 4 + z / 64) :: b64CharOfVal (z % 64) :: b64EncodeBytes rest

/-- Embeds `buffer.toString('base64')`. -/
def base64Encode (b : List Nat) : String := String.mk (b64EncodeBytes b)

/-- Lowercase ASCII letter test, the `[a-z]` of the data-URL regex. -/
def lowerAlpha (c : Char) : Bool := decide ('a' ≤ c ∧ c ≤ 'z')

/-- Boolean list-head match used to model `String.startsWith` style checks. -/
def listStartsWith : List Char → List Char → Bool
  | _, [] => true
  | [], _ :: _ => false
  | h :: hs, p :: ps => h == p && listStartsWith hs ps

/-- Embeds `data.replace(/^data:image\/[a-z]+;base64,/, '')`: one leading
data-URL header (a non-empty run of lowercase letters between
`data:image/` and `;base64,`) is stripped; anything else is untouched.
The regex is anchored, and greedy letter matching followed by the literal
`;base64,` is exact because `;` is not a letter. -/
def stripDataUrl (s : String) : String :=
  let cs := s.data
  if listStartsWith cs "data:image/".data then
    let rest := cs.drop 11
    let letters := rest.takeWhile lowerAlpha
    let after := rest.dropWhile lowerAlpha
    if letters.length ≠ 0 ∧ listStartsWith after ";base64,".data = true then
      String.mk (after.drop 8)
    else s
  else s

/-- Embeds `ImageProcessor.detectMimeType`: prefer the format name sharp's
header parser reports (passed in as `sharpFormat`, `none` when parsing
throws); any other answer falls back to signature sniffing. -/
def detectMimeType (sharpFormat : List Nat → Option String) (buffer : List Nat) : String :=
  match sharpFormat buffer with
  | some "jpeg" => "image/jpeg"
  | some "png" => "image/png"
  | some "webp" => "image/webp"
  | some "gif" => "image/gif"
  | _ => detectFromSignature buffer

/-- The canonical normalized form `{data, mimeType, size}` produced by
`ImageProcessor.processImage`. -/
structure NormalizedImage where
  data : String
  mimeType : String
  size : Nat
deriving DecidableEq, Repr

/-- JS `x || default` for an optional string (empty string is falsy). -/
def jsOrStr (o : Option String) (d : String) : String :=
  match o with
  | some s => if s.isEmpty then d else s
  | none => d

/-- JS `x || default` for an optional integer (0 is falsy). -/
def jsOrInt (o : Option Int) (d : Int) : Int :=
  match o with
  | some x => if x = 0 then d else x
  | none => d

/-- JS `x || default` for an optional rational (0 is falsy). -/
def jsOrRat (o : Option ℚ) (d : ℚ) : ℚ :=
  match o with
  | some x => if x = 0 then d else x
  | none => d

/-- Embeds `ImageProcessor.processBase64Image`.  Every throw inside the
method body is wrapped by its `catch` into
`Base64 image processing failed: <message>`. -/
def processBase64Image (sharpFormat : List Nat → Option String)
    (data : String) (mimeType : Option String) : Except String NormalizedImage :=
  let base64Data := stripDataUrl data
  if base64Data.isEmpty then
    .error "Base64 image processing failed: Empty or invalid base64 data provided"
  else
    let buffer := base64Decode base64Data
    if buffer.isEmpty then
      .error "Base64 image processing failed: Base64 data resulted in empty buffer"
    else
      let detectedMimeType := jsOrStr mimeType (detectMimeType sharpFormat buffer)
      .ok { data := base64Data, mimeType := detectedMimeType, size := buffer.length }

/-- Embeds `ImageProcessor.processFileImage`; `contents` is the outcome of
`readFile` (error value = the underlying error message). -/
def processFileImage (sharpFormat : List Nat → Option String)
    (filePath : String) (contents : Except String (List Nat)) : Except String NormalizedImage :=
  match contents with
  | .error msg => .error ("Failed to read file " ++ filePath ++ ": " ++ msg)
  | .ok buffer =>
      .ok { data := base64Encode buffer,
            mimeType := detectMimeType sharpFormat buffer,
            size := buffer.length }

/-- Embeds `ImageProcessor.detectMimeTypeFromHeaders`: take the
content-type header, drop any `;`-separated parameters, trim. -/
def detectMimeTypeFromHeaders (contentType : Option String) : Option String :=
  match contentType with
  | some ct => if ct.isEmpty then none else some (((ct.splitOn ";").headD "").trim)
  | none => none

/-- Embeds `ImageProcessor.processUrlImage`; `response` is the outcome of
the GET (body bytes and optional content-type header). -/
def processUrlImage (sharpFormat : List Nat → Option String)
    (url : String) (response : Except String (List Nat × Option String)) :
    Except String NormalizedImage :=
  match response with
  | .error msg => .error ("Failed to fetch image from URL " ++ url ++ ": " ++ msg)
  | .ok (body, contentType) =>
      let mimeType := jsOrStr (detectMimeTypeFromHeaders contentType)
        (detectMimeType sharpFormat body)
      .ok { data := base64Encode body, mimeType := mimeType, size := body.length }

/-- Embeds `ImageProcessor.isValidImageType`: exact membership in the fixed
supported set. -/
def isValidImageType (mimeType : String) : Bool :=
  mimeType == "image/jpeg" || mimeType == "image/png" ||
  mimeType == "image/webp" || mimeType == "image/gif"

/-- A JSON value, as produced by the JavaScript `JSON.parse` builtin on
the fragment of JSON the embedding covers (numbers restricted to
integers; the adapter theorems are parametric in the parser anyway). -/
inductive Json where
  | null
  | bool (b : Bool)
  | num (n : Int)
  | str (s : String)
  | arr (xs : List Json)
  | obj (fields : List (String × Json))

/-- Options object of `OpenRouterClient.analyzeImage`. -/
structure AnalyzeOptions where
  format : Option String
  maxTokens : Option Int
  temperature : Option ℚ
deriving DecidableEq, Repr

/-- The outgoing `/chat/completions` request body built by
`OpenRouterClient.analyzeImage`: single user turn with a text part
(`promptText`) and an image part (`imageUrl`), plus the numeric sampling
parameters; `responseFormatJson` records whether `response_format:
{type: 'json_object'}` is attached. -/
structure RequestBody where
  model : String
  promptText : String
  imageUrl : String
  maxTokens : Int
  temperature : ℚ
  responseFormatJson : Bool
deriving DecidableEq, Repr

/-- Shape of a parsed upstream chat-completion response. -/
structure UpstreamMessage where
  content : Option String
deriving DecidableEq, Repr

structure UpstreamChoice where
  message : Option UpstreamMessage
deriving DecidableEq, Repr

structure UpstreamUsage where
  prompt_tokens : Int
  completion_tokens : Int
  total_tokens : Int
deriving DecidableEq, Repr

/-- Upstream response body; absent `choices` and `choices: []` are
indistinguishable through `choices?.[0]`, so both are the empty list. -/
structure UpstreamResponse where
  choices : List UpstreamChoice
  usage : Option UpstreamUsage
deriving DecidableEq, Repr

/-- Normalized token usage `{promptTokens, completionTokens, totalTokens}`. -/
structure UsageNorm where
  promptTokens : Int
  completionTokens : Int
  totalTokens : Int
deriving DecidableEq, Repr

/-- `ImageAnalysisResult`: the success case carries `analysis`,
`structuredData`, the model id and optional usage; the failure case
carries the error message. -/
inductive AnalysisOutcome where
  | success (analysis : String) (structuredData : Json) (model : String)
      (usage : Option UsageNorm)
  | failure (error : String)

/-- The fixed default prompt of `analyzeImage` (also used by the tool
handlers). -/
def defaultPrompt : String :=
  "Analyze this image in detail. Describe what you see, including objects, people, text, and any notable features."

/-- `prompt || defaultPrompt`. -/
def effectivePrompt (prompt : String) : String :=
  if prompt.isEmpty then defaultPrompt else prompt

/-- Embeds the pre-flight validation and request construction of
`OpenRouterClient.analyzeImage` (the thrown errors become the messages the
method's `catch` reports verbatim). -/
def buildAnalyzeRequest (model imageData mimeType prompt : String)
    (options : AnalyzeOptions) : Except String RequestBody :=
  if imageData.isEmpty then .error "No image data provided"
  else if mimeType.isEmpty then .error "No MIME type provided"
  else if 20 * 1024 * 1024 < imageData.length then
    .error ("Image data too large: " ++ toString imageData.length ++
      " characters. Maximum allowed is 20MB.")
  else
    let promptText := effectivePrompt prompt
    if 10000 < promptText.length then
      .error ("Prompt too long: " ++ toString promptText.length ++
        " characters. Maximum allowed is 10000.")
    else
      .ok { model := model,
            promptText := promptText,
            imageUrl := "data:" ++ mimeType ++ ";base64," ++ imageData,
            maxTokens := min (jsOrInt options.maxTokens 4000) 8000,
            temperature := jsOrRat options.temperature (1/10),
            responseFormatJson := options.format == some "json" }

/-- Embeds the response handling of `OpenRouterClient.analyzeImage`:
missing first choice and missing/empty content become the two fixed
failure messages (via the method's `catch`); when JSON output was
requested the content is parsed with `jp` (`JSON.parse`) and on success
pretty-printed with `pp` (`JSON.stringify(v, null, 2)`), while a parse
failure falls back to the raw text wrapped in `{analysis: content}`. -/
def handleAnalyzeResponse (jp : String → Option Json) (pp : Json → String)
    (model : String) (wantJson : Bool) (resp : UpstreamResponse) : AnalysisOutcome :=
  match resp.choices.head? with
  | none => .failure "No response from model"
  | some choice =>
    match choice.message with
    | none => .failure "Empty response from model"
    | some msg =>
      match msg.content with
      | none => .failure "Empty response from model"
      | some content =>
        if content.isEmpty then .failure "Empty response from model"
        else
          let pair :=
            if wantJson then
              match jp content with
              | some v => (pp v, v)
              | none => (content, Json.obj [("analysis", Json.str content)])
            else (content, Json.obj [("analysis", Json.str content)])
          .success pair.1 pair.2 model
            (resp.usage.map fun u =>
              { promptTokens := u.prompt_tokens,
                completionTokens := u.completion_tokens,
                totalTokens := u.total_tokens })

/-- Embeds `OpenRouterClient.analyzeImage` end to end.  `net` is the
upstream `/chat/completions` endpoint (a delivered 2xx response; transport
errors are handled by `extractErrorMessage` and are not needed by any
claim).  The second component records the requests actually sent, so that
"no network request is issued" is the statement that this list is empty. -/
def analyzeImage (jp : String → Option Json) (pp : Json → String)
    (model : String) (net : RequestBody → UpstreamResponse)
    (imageData mimeType prompt : String) (options : AnalyzeOptions) :
    AnalysisOutcome × List RequestBody :=
  match buildAnalyzeRequest model imageData mimeType prompt options with
  | .error msg => (.failure msg, [])
  | .ok req =>
      (handleAnalyzeResponse jp pp model (options.format == some "json") (net req), [req])

/-- True when `t` occurs as a substring of `s`, modelling the JavaScript
`String.includes` check. -/
def listContainsSub : List Char → List Char → Bool
  | [], needle => needle.isEmpty
  | h :: t, needle => listStartsWith (h :: t) needle || listContainsSub t needle

def containsStr (s t : String) : Bool := listContainsSub s.data t.data

/-- Protocol output of a tool handler: one text payload plus the error
flag (the flag is simply absent on success in the source). -/
structure ToolResult where
  text : String
  isError : Bool
deriving DecidableEq, Repr

/-- The catch block of `handleAnalyzeImage`: timeout-flavoured messages
get an extra hint appended, everything else is reported verbatim behind
an `Error: ` marker, always with the error flag set. -/
def renderToolError (msg : String) : ToolResult :=
  if containsStr msg "timed out" then
    { text := "Error: " ++ msg ++ ". The image may be too large or the server is experiencing delays.",
      isError := true }
  else
    { text := "Error: " ++ msg, isError := true }

/-- Embeds `handleAnalyzeImage` (src/tools/analyze-image.ts).  `adapter`
is `openRouterClient.analyzeImage`; `processed` is the outcome of
`imageProcessor.processImage` (the 30s processing timeout races are
outside the embedding — `processed` is whichever outcome won).  The
second component records the adapter invocations, so "the Adapter is
never invoked" is the statement that this list is empty. -/
def handleAnalyzeImage
    (adapter : NormalizedImage → String → AnalyzeOptions → AnalysisOutcome)
    (maxImageSize : Option Int) (processed : Except String NormalizedImage)
    (argsPrompt : Option String) (options : AnalyzeOptions) :
    ToolResult × List NormalizedImage :=
  match processed with
  | .error msg => (renderToolError msg, [])
  | .ok img =>
    if isValidImageType img.mimeType = false then
      (renderToolError ("Unsupported image type: " ++ img.mimeType), [])
    else
      let maxSize := jsOrInt maxImageSize 10485760
      if maxSize < (img.size : Int) then
        (renderToolError ("Image size " ++ toString img.size ++
          " exceeds maximum allowed size " ++ toString maxSize), [])
      else
        match adapter img (jsOrStr argsPrompt defaultPrompt) options with
        | .failure err =>
            (renderToolError (if err.isEmpty then "Failed to analyze image" else err), [img])
        | .success analysis _ _ _ =>
            ({ text := if analysis.isEmpty then "No analysis available" else analysis,
               isError := false }, [img])

/-- Opening brace character. -/
def objOpen : Char := Char.ofNat 123

/-- Closing brace character. -/
def objClose : Char := Char.ofNat 125

/-- JSON insignificant whitespace. -/
def jsSkipWs (cs : List Char) : List Char :=
  cs.dropWhile fun c => c = ' ' || c = '\t' || c = '\n' || c = '\r'

/-- Single-character JSON string escapes (the `\uXXXX` form is outside the
modelled fragment). -/
def escChar (c : Char) : Option Char :=
  if c = '"' then some '"'
  else if c = '\\' then some '\\'
  else if c = '/' then some '/'
  else if c = 'n' then some '\n'
  else if c = 't' then some '\t'
  else if c = 'r' then some '\r'
  else if c = 'b' then some (Char.ofNat 8)
  else if c = 'f' then some (Char.ofNat 12)
  else none

/-- Parse the body of a JSON string after the opening quote; returns the
decoded characters and the remainder after the closing quote. -/
def parseStringBody : List Char → Option (List Char × List Char)
  | [] => none
  | c :: rest =>
    if c = '"' then some ([], rest)
    else if c = '\\' then
      match rest with
      | [] => none
      | e :: rest2 =>
        match escChar e with
        | none => none
        | some ch => (parseStringBody rest2).map fun p => (ch :: p.1, p.2)
    else (parseStringBody rest).map fun p => (c :: p.1, p.2)

/-- ASCII digit test. -/
def isDigitCh (c : Char) : Bool := decide ('0' ≤ c ∧ c ≤ '9')

/-- Parse an integer JSON number (fraction and exponent forms are outside
the modelled fragment). -/
def parseNumber (cs : List Char) : Option (Json × List Char) :=
  let p := match cs with
    | '-' :: t => (true, t)
    | _ => (false, cs)
  let digs := p.2.takeWhile isDigitCh
  let rest := p.2.dropWhile isDigitCh
  if digs.isEmpty then none
  else
    match rest with
    | '.' :: _ => none
    | 'e' :: _ => none
    | 'E' :: _ => none
    | _ =>
      let n : Nat := digs.foldl (fun acc c => acc * 10 + (c.toNat - 48)) 0
      some (.num (if p.1 then -(n : Int) else (n : Int)), rest)

mutual

/-- Fuel-indexed recursive-descent JSON value parser. -/
def parseValF : Nat → List Char → Option (Json × List Char)
  | 0, _ => none
  | fuel + 1, cs =>
    match jsSkipWs cs with
    | 'n' :: 'u' :: 'l' :: 'l' :: rest => some (.null, rest)
    | 't' :: 'r' :: 'u' :: 'e' :: rest => some (.bool true, rest)
    | 'f' :: 'a' :: 'l' :: 's' :: 'e' :: rest => some (.bool false, rest)
    | '"' :: rest => (parseStringBody rest).map fun p => (.str (String.mk p.1), p.2)
    | '[' :: rest =>
      (match jsSkipWs rest with
       | ']' :: rest2 => some (.arr [], rest2)
       | other => (parseItemsF fuel other).map fun p => (.arr p.1, p.2))
    | c :: rest =>
      if c = objOpen then
        match jsSkipWs rest with
        | [] => none
        | c2 :: rest2 =>
          if c2 = objClose then some (.obj [], rest2)
          else (parseFieldsF fuel (c2 :: rest2)).map fun p => (.obj p.1, p.2)
      else parseNumber (c :: rest)
    | [] => none

/-- Parse the comma-separated items of a non-empty JSON array. -/
def parseItemsF : Nat → List Char → Option (List Json × List Char)
  | 0, _ => none
  | fuel + 1, cs =>
    match parseValF fuel cs with
    | none => none
    | some (v, rest) =>
      match jsSkipWs rest with
      | ',' :: rest2 => (parseItemsF fuel rest2).map fun p => (v :: p.1, p.2)
      | ']' :: rest2 => some ([v], rest2)
      | _ => none

/-- Parse the comma-separated members of a non-empty JSON object. -/
def parseFieldsF : Nat → List Char → Option (List (String × Json) × List Char)
  | 0, _ => none
  | fuel + 1, cs =>
    match jsSkipWs cs with
    | '"' :: rest =>
      (match parseStringBody rest with
       | none => none
       | some (key, rest2) =>
         match jsSkipWs rest2 with
         | ':' :: rest3 =>
           (match parseValF fuel rest3 with
            | none => none
            | some (v, rest4) =>
              match jsSkipWs rest4 with
              | ',' :: rest5 =>
                (parseFieldsF fuel rest5).map fun p => ((String.mk key, v) :: p.1, p.2)
              | c :: rest5 =>
                if c = objClose then some ([(String.mk key, v)], rest5) else none
              | [] => none)
         | _ => none)
    | _ => none

end

/-- Concrete model of the `JSON.parse` builtin on the integer fragment of
JSON, used to evaluate witnesses; the adapter theorems take the parser as
a parameter. -/
def jsonParseModel (s : String) : Option Json :=
  match parseValF (s.data.length * 2 + 4) s.data with
  | some (v, rest) => if jsSkipWs rest = [] then some v else none
  | none => none

/-- Indentation string of `n` spaces. -/
def spacesN (n : Nat) : String := String.mk (List.replicate n ' ')

/-- Lowercase hexadecimal digit. -/
def hexDigitCh (n : Nat) : Char := "0123456789abcdef".data.getD n '0'

/-- `JSON.stringify` escaping of a single string character. -/
def jsQuoteChar (c : Char) : List Char :=
  if c = '"' then ['\\', '"']
  else if c = '\\' then ['\\', '\\']
  else if c = '\n' then ['\\', 'n']
  else if c = '\t' then ['\\', 't']
  else if c = '\r' then ['\\', 'r']
  else if c = Char.ofNat 8 then ['\\', 'b']
  else if c = Char.ofNat 12 then ['\\', 'f']
  else if c.toNat < 32 then
    '\\' :: 'u' :: '0' :: '0' :: [hexDigitCh (c.toNat / 16), hexDigitCh (c.toNat % 16)]
  else [c]

/-- `JSON.stringify` rendering of a string literal. -/
def jsQuote (s : String) : String :=
  String.mk ('"' :: s.data.foldr (fun c acc => jsQuoteChar c ++ acc) ['"'])

/-- Fuel-indexed pretty printer mirroring `JSON.stringify(v, null, 2)` at
indentation level `ind`. -/
def prettyValF : Nat → Nat → Json → String
  | 0, _, _ => ""
  | fuel + 1, ind, v =>
    match v with
    | .null => "null"
    | .bool true => "true"
    | .bool false => "false"
    | .num n => toString n
    | .str s => jsQuote s
    | .arr [] => "[]"
    | .arr xs =>
        "[\n" ++
        String.intercalate ",\n"
          (xs.map fun x => spacesN (ind + 2) ++ prettyValF fuel (ind + 2) x) ++
        "\n" ++ spacesN ind ++ "]"
    | .obj [] => "\x7b\x7d"
    | .obj fs =>
        "\x7b\n" ++
        String.intercalate ",\n"
          (fs.map fun kv => spacesN (ind + 2) ++ jsQuote kv.1 ++ ": " ++
            prettyValF fuel (ind + 2) kv.2) ++
        "\n" ++ spacesN ind ++ "\x7d"

/-- Concrete model of the `JSON.stringify(v, null, 2)` builtin (on values
of nesting depth below the fuel bound), used to evaluate witnesses. -/
def jsonPrettyModel (v : Json) : String := prettyValF 64 0 v



/-- Success/failure discriminator used by the fail-fast claims: a
`failure` carrying a non-empty message. -/
def isDescriptiveFailure : AnalysisOutcome → Bool
  | .failure m => m != ""
  | _ => false

/-- Fixture: a `sharp` that always fails header parsing (as it does on the
tiny signature-only buffers the witnesses use), forcing the signature
fallback. -/
def sharpNone : List Nat → Option String := fun _ => none

/-- Fixture: a network that always delivers the same response. -/
def netConst (r : UpstreamResponse) : RequestBody → UpstreamResponse := fun _ => r

/-- Fixture: upstream response with zero choices. -/
def respNoChoices : UpstreamResponse := { choices := [], usage := none }

/-- Fixture: upstream response whose first choice has no message. -/
def respNoMessage : UpstreamResponse := { choices := [{ message := none }], usage := none }

/-- Fixture: upstream response whose content is the JSON text of
the object with a single field a mapped to 1. -/
def respJsonContent : UpstreamResponse :=
  { choices := [{ message := some { content := some "\x7b\"a\":1\x7d" } }], usage := none }

/-- Fixture: options objects. -/
def optsNone : AnalyzeOptions := { format := none, maxTokens := none, temperature := none }

def optsJson : AnalyzeOptions := { format := some "json", maxTokens := none, temperature := none }

def optsZero : AnalyzeOptions := { format := none, maxTokens := some 0, temperature := some 0 }

/-- Fixture: an adapter stub for the dispatch-layer statements. -/
def adapterStub : NormalizedImage → String → AnalyzeOptions → AnalysisOutcome :=
  fun _ _ _ => .failure "stub"

/-- Fixture: an oversized normalized image with an unsupported MIME type. -/
def imgBigUnsupported : NormalizedImage :=
  { data := "AAAA", mimeType := "text/plain", size := 99999999 }

/-- Fixture: an oversized normalized image with a supported MIME type. -/
def imgBigPng : NormalizedImage :=
  { data := "AAAA", mimeType := "image/png", size := 99999999 }

/-- Fixture: the request body `analyzeImage` sends for a minimal valid
call with no options supplied. -/
def reqDefaults : RequestBody :=
  { model := "m", promptText := defaultPrompt,
    imageUrl := "data:image/png;base64,AAAA",
    maxTokens := 4000, temperature := 1/10, responseFormatJson := false }

/-- Fixture: the normalized value of the base64 input AAAA with no
declared MIME type. -/
def imgB64W : NormalizedImage :=
  { data := "AAAA", mimeType := "application/octet-stream", size := 3 }

/-- Fixture: the normalized value of a 5-byte PNG-signature file. -/
def imgFileW : NormalizedImage :=
  { data := base64Encode [0x89, 0x50, 0x4e, 0x47, 0], mimeType := "image/png", size := 5 }

/-- Fixture: the normalized value of a 4-byte JPEG-signature download with
no content-type header. -/
def imgUrlW : NormalizedImage :=
  { data := base64Encode [0xff, 0xd8, 0xff, 0], mimeType := "image/jpeg", size := 4 }

/-! ## Helper lemmas -/

theorem lsw_nil (l : List Char) : listStartsWith l [] = true := by
  cases l <;> rfl

theorem lsw_append (pat rest : List Char) : listStartsWith (pat ++ rest) pat = true := by
  induction pat with
  | nil => exact lsw_nil rest
  | cons p ps ih => simp [listStartsWith, ih]

theorem takeWhile_all_append (p : Char → Bool) (L R : List Char) (c : Char)
    (hL : ∀ x ∈ L, p x = true) (hc : p c = false) :
    (L ++ c :: R).takeWhile p = L := by
  induction L with
  | nil => simp [List.takeWhile_cons, hc]
  | cons a as ih =>
    have ha := hL a (by simp)
    simp only [List.cons_append, List.takeWhile_cons, ha, if_true]
    rw [ih (fun x hx => hL x (by simp [hx]))]

theorem dropWhile_all_append (p : Char → Bool) (L R : List Char) (c : Char)
    (hL : ∀ x ∈ L, p x = true) (hc : p c = false) :
    (L ++ c :: R).dropWhile p = c :: R := by
  induction L with
  | nil => simp [List.dropWhile_cons, hc]
  | cons a as ih =>
    have ha := hL a (by simp)
    simp only [List.cons_append, List.dropWhile_cons, ha, if_true]
    exact ih (fun x hx => hL x (by simp [hx]))

/-! ## Claim C1 -/

/-- Claim C1 (amended): the signature sniffer agrees everywhere with the
claim-level description `sniffSpec` — JPEG on a leading FF D8 FF, PNG on
89 50 4E 47, GIF on 47 49 46 38, WEBP on a leading 52 49 46 46 when the
buffer has at least 13 bytes and its bytes 8-11 read WEBP under ascii
decoding (high bit cleared), and the octet-stream fallback on buffers
shorter than 4 bytes or matching no signature; the function is total, so
it never throws. -/
theorem sniffer_matches_spec (buffer : List Nat) :
    detectFromSignature buffer = sniffSpec buffer := by
  match buffer with
  | [] => rfl
  | [_] => rfl
  | [_, _] => rfl
  | [_, _, _] => rfl
  | a :: b :: c :: d :: rest =>
    have hlen : ¬((a :: b :: c :: d :: rest).length < 4) := by
      simp [List.length_cons]
    have ht3 : (a :: b :: c :: d :: rest).take 3 = [a, b, c] := rfl
    have ht4 : (a :: b :: c :: d :: rest).take 4 = [a, b, c, d] := rfl
    simp only [detectFromSignature, sniffSpec, hlen, if_false, ht3, ht4,
      List.getD_cons_zero, List.getD_cons_succ, List.cons.injEq, and_true,
      List.length_cons]
    split_ifs <;> simp_all <;> omega

/-- Claim C1, counterexamples to the claim as stated: a 12-byte buffer
beginning 52 49 46 46 with ASCII WEBP at offsets 8-11 is classified as
octet-stream, not image/webp (the code requires strictly more than 12
bytes); and a 13-byte buffer whose offsets 8-11 only read WEBP after the
high bit is cleared matches none of the claim's signatures yet is
classified image/webp. -/
theorem sniffer_webp_claim_cex :
    (([0x52, 0x49, 0x46, 0x46, 0, 0, 0, 0, 0x57, 0x45, 0x42, 0x50] : List Nat).take 4
        = [0x52, 0x49, 0x46, 0x46] ∧
      (([0x52, 0x49, 0x46, 0x46, 0, 0, 0, 0, 0x57, 0x45, 0x42, 0x50] : List Nat).drop 8).take 4
        = [0x57, 0x45, 0x42, 0x50] ∧
      detectFromSignature [0x52, 0x49, 0x46, 0x46, 0, 0, 0, 0, 0x57, 0x45, 0x42, 0x50]
        ≠ "image/webp" ∧
      detectFromSignature [0x52, 0x49, 0x46, 0x46, 0, 0, 0, 0, 0x57, 0x45, 0x42, 0x50]
        = "application/octet-stream") ∧
    ((([0x52, 0x49, 0x46, 0x46, 0, 0, 0, 0, 0xd7, 0xc5, 0xc2, 0xd0, 0] : List Nat).drop 8).take 4
        ≠ [0x57, 0x45, 0x42, 0x50] ∧
      detectFromSignature [0x52, 0x49, 0x46, 0x46, 0, 0, 0, 0, 0xd7, 0xc5, 0xc2, 0xd0, 0]
        = "image/webp") := by
  decide

theorem b64_val_of_char : ∀ n < 64, b64CharVal (b64CharOfVal n) = some n := by decide

theorem b64CharVal_pad : b64CharVal '=' = none := by decide

theorem b64_decode_encode_list :
    ∀ b : List Nat, (∀ x ∈ b, x < 256) →
      b64DecodeSextets ((b64EncodeBytes b).filterMap b64CharVal) = b := by
  intro b
  induction b using b64EncodeBytes.induct with
  | case1 => intro _; rfl
  | case2 x =>
    intro h
    have hx : x < 256 := h x (by simp)
    have e1 := b64_val_of_char (x / 4) (by omega)
    have e2 := b64_val_of_char (x % 4 * 16) (by omega)
    simp only [b64EncodeBytes, List.filterMap_cons, e1, e2, b64CharVal_pad,
      List.filterMap_nil, b64DecodeSextets, List.cons.injEq, and_true]
    omega
  | case3 x y =>
    intro h
    have hx : x < 256 := h x (by simp)
    have hy : y < 256 := h y (by simp)
    have e1 := b64_val_of_char (x / 4) (by omega)
    have e2 := b64_val_of_char (x % 4 * 16 + y / 16) (by omega)
    have e3 := b64_val_of_char (y % 16 * 4) (by omega)
    simp only [b64EncodeBytes, List.filterMap_cons, e1, e2, e3, b64CharVal_pad,
      List.filterMap_nil, b64DecodeSextets, List.cons.injEq, and_true]
    omega
  | case4 x y z rest ih =>
    intro h
    have hx : x < 256 := h x (by simp)
    have hy : y < 256 := h y (by simp)
    have hz : z < 256 := h z (by simp)
    have ihr := ih (fun w hw => h w (by simp [hw]))
    have e1 := b64_val_of_char (x / 4) (by omega)
    have e2 := b64_val_of_char (x % 4 * 16 + y / 16) (by omega)
    have e3 := b64_val_of_char (y % 16 * 4 + z / 64) (by omega)
    have e4 := b64_val_of_char (z % 64) (by omega)
    simp only [b64EncodeBytes, List.filterMap_cons, e1, e2, e3, e4, b64DecodeSextets]
    rw [ihr]
    simp only [List.cons.injEq, and_true]
    omega

theorem base64_decode_encode (b : List Nat) (h : ∀ x ∈ b, x < 256) :
    base64Decode (base64Encode b) = b :=
  b64_decode_encode_list b h

theorem detectFromSignature_range (b : List Nat) :
    isValidImageType (detectFromSignature b) = true ∨
      detectFromSignature b = "application/octet-stream" := by
  simp only [detectFromSignature]
  split_ifs <;> simp [isValidImageType]

theorem detectMimeType_range (f : List Nat → Option String) (b : List Nat) :
    isValidImageType (detectMimeType f b) = true ∨
      detectMimeType f b = "application/octet-stream" := by
  unfold detectMimeType
  split
  · simp [isValidImageType]
  · simp [isValidImageType]
  · simp [isValidImageType]
  · simp [isValidImageType]
  · exact detectFromSignature_range b

/-! ## Claim C2 -/

/-- Claim C2 (amended): for every successfully normalized image, the
returned size equals the decoded byte length of the returned base64 data;
and the returned MIME type is in the fixed supported set or is the
octet-stream fallback whenever it was obtained by sniffing — that is, for
the base64 variant when no (non-empty) MIME type was declared by the
caller, always for the file variant, and for the URL variant when the
response carried no content-type header.  (A declared MIME type or header
value is passed through verbatim instead, see the counterexample.) -/
theorem normalized_image_invariants :
    (∀ f data mt img, processBase64Image f data mt = .ok img →
       img.size = (base64Decode img.data).length ∧
       (mt = none ∨ mt = some "" →
         isValidImageType img.mimeType = true ∨ img.mimeType = "application/octet-stream")) ∧
    (∀ f path b img, (∀ x ∈ b, x < 256) →
       processFileImage f path (.ok b) = .ok img →
       img.size = (base64Decode img.data).length ∧
       (isValidImageType img.mimeType = true ∨ img.mimeType = "application/octet-stream")) ∧
    (∀ f url b ct img, (∀ x ∈ b, x < 256) →
       processUrlImage f url (.ok (b, ct)) = .ok img →
       img.size = (base64Decode img.data).length ∧
       (ct = none →
         isValidImageType img.mimeType = true ∨ img.mimeType = "application/octet-stream")) := by
  refine ⟨?_, ?_, ?_⟩
  · intro f data mt img h
    simp only [processBase64Image] at h
    split_ifs at h with h1 h2
    simp only [Except.ok.injEq] at h
    subst h
    refine ⟨rfl, ?_⟩
    rintro (rfl | rfl)
    · exact detectMimeType_range f _
    · exact detectMimeType_range f _
  · intro f path b img hb h
    simp only [processFileImage, Except.ok.injEq] at h
    subst h
    constructor
    · show b.length = (base64Decode (base64Encode b)).length
      rw [base64_decode_encode b hb]
    · exact detectMimeType_range f b
  · intro f url b ct img hb h
    simp only [processUrlImage, Except.ok.injEq] at h
    subst h
    constructor
    · show b.length = (base64Decode (base64Encode b)).length
      rw [base64_decode_encode b hb]
    · rintro rfl
      exact detectMimeType_range f b

/-- Claim C2, witness: the amended invariant evaluated on one concrete
input of each variant. -/
theorem normalized_image_invariants_witness :
    (imgB64W.size = (base64Decode imgB64W.data).length ∧
      (isValidImageType imgB64W.mimeType = true ∨
        imgB64W.mimeType = "application/octet-stream")) ∧
    (imgFileW.size = (base64Decode imgFileW.data).length ∧
      (isValidImageType imgFileW.mimeType = true ∨
        imgFileW.mimeType = "application/octet-stream")) ∧
    (imgUrlW.size = (base64Decode imgUrlW.data).length ∧
      (isValidImageType imgUrlW.mimeType = true ∨
        imgUrlW.mimeType = "application/octet-stream")) := by
  refine ⟨?_, ?_, ?_⟩
  · have h := normalized_image_invariants.1 sharpNone "AAAA" none imgB64W rfl
    exact ⟨h.1, h.2 (Or.inl rfl)⟩
  · exact normalized_image_invariants.2.1 sharpNone "f.png" [0x89, 0x50, 0x4e, 0x47, 0]
      imgFileW (by decide) rfl
  · have h := normalized_image_invariants.2.2 sharpNone "http://e" [0xff, 0xd8, 0xff, 0]
      none imgUrlW (by decide) rfl
    exact ⟨h.1, h.2 rfl⟩

/-- Claim C2, counterexample to the claim as stated: a base64 input with
the caller-declared MIME type text/plain normalizes successfully with
mimeType text/plain, which is neither in the supported set nor the
octet-stream fallback. -/
theorem normalized_image_mime_cex :
    processBase64Image sharpNone "AAAA" (some "text/plain") =
      .ok { data := "AAAA", mimeType := "text/plain", size := 3 } ∧
    isValidImageType "text/plain" = false ∧
    "text/plain" ≠ "application/octet-stream" :=
  ⟨rfl, rfl, by decide⟩

theorem stripDataUrl_eq (s sub payload : String)
    (hs : s.data = "data:image/".data ++
      (sub.data ++ (';' :: 'b' :: 'a' :: 's' :: 'e' :: '6' :: '4' :: ',' :: payload.data)))
    (h1 : sub.data ≠ []) (h2 : ∀ c ∈ sub.data, lowerAlpha c = true) :
    stripDataUrl s = payload := by
  have hpre : ("data:image/".data).length = 11 := rfl
  have hdrop : s.data.drop 11 =
      sub.data ++ (';' :: 'b' :: 'a' :: 's' :: 'e' :: '6' :: '4' :: ',' :: payload.data) := by
    rw [hs, ← hpre, List.drop_left]
  have hsc : lowerAlpha ';' = false := rfl
  have htake : (s.data.drop 11).takeWhile lowerAlpha = sub.data := by
    rw [hdrop]; exact takeWhile_all_append lowerAlpha _ _ _ h2 hsc
  have hdw : (s.data.drop 11).dropWhile lowerAlpha =
      ';' :: 'b' :: 'a' :: 's' :: 'e' :: '6' :: '4' :: ',' :: payload.data := by
    rw [hdrop]; exact dropWhile_all_append lowerAlpha _ _ _ h2 hsc
  have hlsw : listStartsWith s.data "data:image/".data = true := by
    rw [hs]; exact lsw_append _ _
  have hlsw2 : listStartsWith
      (';' :: 'b' :: 'a' :: 's' :: 'e' :: '6' :: '4' :: ',' :: payload.data)
      ";base64,".data = true :=
    lsw_append ";base64,".data payload.data
  simp only [stripDataUrl, hlsw, if_true, htake, hdw, hlsw2, and_true]
  rw [if_pos]
  · rfl
  · intro hc
    exact h1 (List.length_eq_zero.mp hc)

theorem stripDataUrl_png (payload : String) :
    stripDataUrl ("data:image/png;base64," ++ payload) = payload :=
  stripDataUrl_eq _ "png" payload rfl (by decide) (by decide)

theorem detectFromSignature_jpeg (bs : List Nat)
    (h3 : bs.take 3 = [0xff, 0xd8, 0xff]) (h4 : 4 ≤ bs.length) :
    detectFromSignature bs = "image/jpeg" := by
  match bs with
  | [] => simp at h4
  | [_] => simp at h4
  | [_, _] => simp at h4
  | [_, _, _] => simp at h4
  | a :: b :: c :: d :: rest =>
    have habc : a = 0xff ∧ b = 0xd8 ∧ c = 0xff := by
      have : ([a, b, c] : List Nat) = [0xff, 0xd8, 0xff] := h3
      simpa using this
    obtain ⟨rfl, rfl, rfl⟩ := habc
    have hl : ¬((0xff :: 0xd8 :: 0xff :: d :: rest).length < 4) := by simp
    simp [detectFromSignature, hl]

theorem detectMimeType_jpeg (f : List Nat → Option String) (bs : List Nat)
    (h3 : bs.take 3 = [0xff, 0xd8, 0xff]) (h4 : 4 ≤ bs.length)
    (hf : f bs = none ∨ f bs = some "jpeg") :
    detectMimeType f bs = "image/jpeg" := by
  unfold detectMimeType
  rcases hf with hf | hf <;> rw [hf]
  · exact detectFromSignature_jpeg bs h3 h4
  · rfl

/-! ## Claim C8 -/

/-- Claim C8 (amended): for every base64 input consisting of the literal
data-URL header data:image/png;base64, followed by a payload, successful
normalization returns base64Data equal to exactly the un-prefixed
payload; the returned mimeType is the sniffed type of the decoded payload
bytes (so it is image/png exactly when sniffing reports PNG — the
header's subtype is discarded, see the counterexample); and normalization
is a pure function of its input, so normalizing the same payload twice
yields identical values. -/
theorem base64_roundtrip_normalization (f : List Nat → Option String)
    (payload : String) (img : NormalizedImage)
    (h : processBase64Image f ("data:image/png;base64," ++ payload) none = .ok img) :
    img.data = payload ∧
    img.mimeType = detectMimeType f (base64Decode payload) ∧
    processBase64Image f ("data:image/png;base64," ++ payload) none =
      processBase64Image f ("data:image/png;base64," ++ payload) none := by
  simp only [processBase64Image, stripDataUrl_png] at h
  split_ifs at h with h1 h2
  simp only [Except.ok.injEq] at h
  subst h
  exact ⟨rfl, rfl, rfl⟩

/-- Claim C8, witness: the amended claim evaluated on the JPEG-signature
payload. -/
theorem base64_roundtrip_normalization_witness :
    ({ data := "/9j/4A==", mimeType := "image/jpeg", size := 4 } : NormalizedImage).data
        = "/9j/4A==" ∧
    ({ data := "/9j/4A==", mimeType := "image/jpeg", size := 4 } : NormalizedImage).mimeType
        = detectMimeType sharpNone (base64Decode "/9j/4A==") := by
  have h := base64_roundtrip_normalization sharpNone "/9j/4A=="
    { data := "/9j/4A==", mimeType := "image/jpeg", size := 4 } rfl
  exact ⟨h.1, h.2.1⟩

/-- Claim C8, counterexample to the claim as stated: the non-empty
payload /9j/4A== (which decodes to JPEG-signature bytes FF D8 FF E0)
under the data:image/png;base64, header normalizes successfully with
mimeType image/jpeg, not image/png. -/
theorem base64_roundtrip_mime_cex :
    processBase64Image sharpNone "data:image/png;base64,/9j/4A==" none =
      .ok { data := "/9j/4A==", mimeType := "image/jpeg", size := 4 } ∧
    "image/jpeg" ≠ "image/png" :=
  ⟨rfl, by decide⟩

/-! ## Claim C10 -/

/-- Claim C10: for the base64 variant with no declared MIME type, the
subtype inside a leading data-URL header is never consulted: the result
is the same for every valid subtype, the resulting mimeType is computed
solely from the decoded payload bytes, and in particular a JPEG-signature
payload under any subtype (e.g. png) normalizes with mimeType image/jpeg,
not image/png (given that sharp's header parse on those bytes fails or
reports jpeg, the only behaviours consistent with JPEG data). -/
theorem mime_ignores_url_subtype (f : List Nat → Option String) (sub payload : String)
    (h1 : sub.data ≠ []) (h2 : ∀ c ∈ sub.data, lowerAlpha c = true) :
    (processBase64Image f ("data:image/" ++ sub ++ (";base64," ++ payload)) none =
       processBase64Image f ("data:image/png;base64," ++ payload) none) ∧
    (∀ img, processBase64Image f ("data:image/" ++ sub ++ (";base64," ++ payload)) none
        = .ok img → img.mimeType = detectMimeType f (base64Decode payload)) ∧
    ((base64Decode payload).take 3 = [0xff, 0xd8, 0xff] →
      4 ≤ (base64Decode payload).length →
      f (base64Decode payload) = none ∨ f (base64Decode payload) = some "jpeg" →
      ∀ img, processBase64Image f ("data:image/" ++ sub ++ (";base64," ++ payload)) none
          = .ok img → img.mimeType = "image/jpeg" ∧ img.mimeType ≠ "image/png") := by
  have hs : ("data:image/" ++ sub ++ (";base64," ++ payload)).data =
      "data:image/".data ++
        (sub.data ++ (';' :: 'b' :: 'a' :: 's' :: 'e' :: '6' :: '4' :: ',' :: payload.data)) := by
    show ("data:image/".data ++ sub.data) ++ (";base64,".data ++ payload.data) =
      "data:image/".data ++
        (sub.data ++ (';' :: 'b' :: 'a' :: 's' :: 'e' :: '6' :: '4' :: ',' :: payload.data))
    rw [List.append_assoc]
    rfl
  have hstrip := stripDataUrl_eq _ sub payload hs h1 h2
  have hmime : ∀ img,
      processBase64Image f ("data:image/" ++ sub ++ (";base64," ++ payload)) none = .ok img →
      img.mimeType = detectMimeType f (base64Decode payload) := by
    intro img h
    simp only [processBase64Image, hstrip] at h
    split_ifs at h with e1 e2
    simp only [Except.ok.injEq] at h
    subst h
    rfl
  refine ⟨?_, hmime, ?_⟩
  · simp only [processBase64Image, hstrip, stripDataUrl_png]
  · intro hsig hlen hf img h
    rw [hmime img h, detectMimeType_jpeg f _ hsig hlen hf]
    exact ⟨rfl, by decide⟩

/-- Claim C10, witness: the JPEG-signature payload under the gif subtype
normalizes as image/jpeg. -/
theorem mime_ignores_url_subtype_witness :
    ({ data := "/9j/4A==", mimeType := "image/jpeg", size := 4 } : NormalizedImage).mimeType
        = "image/jpeg" ∧
    ({ data := "/9j/4A==", mimeType := "image/jpeg", size := 4 } : NormalizedImage).mimeType
        ≠ "image/png" :=
  (mime_ignores_url_subtype sharpNone "gif" "/9j/4A==" (by decide) (by decide)).2.2
    (by decide) (by decide) (Or.inl rfl)
    { data := "/9j/4A==", mimeType := "image/jpeg", size := 4 } rfl

theorem str_append_ne (s t : String) (h : s ≠ "") : (s ++ t) ≠ "" := by
  cases s with
  | mk l =>
    cases t with
    | mk m =>
      intro hc
      apply h
      have hlm : l ++ m = ([] : List Char) := congrArg String.data hc
      have hl : l = [] := (List.append_eq_nil.mp hlm).1
      subst hl
      rfl

theorem buildAnalyzeRequest_ok (model imageData mimeType prompt : String)
    (opts : AnalyzeOptions)
    (h1 : imageData ≠ "") (h2 : mimeType ≠ "")
    (h3 : imageData.length ≤ 20 * 1024 * 1024)
    (h4 : (effectivePrompt prompt).length ≤ 10000) :
    buildAnalyzeRequest model imageData mimeType prompt opts = .ok
      { model := model, promptText := effectivePrompt prompt,
        imageUrl := "data:" ++ mimeType ++ ";base64," ++ imageData,
        maxTokens := min (jsOrInt opts.maxTokens 4000) 8000,
        temperature := jsOrRat opts.temperature (1/10),
        responseFormatJson := opts.format == some "json" } := by
  have e1 : ¬(imageData.isEmpty = true) := fun hc => h1 ((String.isEmpty_iff _).mp hc)
  have e2 : ¬(mimeType.isEmpty = true) := fun hc => h2 ((String.isEmpty_iff _).mp hc)
  have e3 : ¬(20 * 1024 * 1024 < imageData.length) := not_lt.mpr h3
  have e4 : ¬(10000 < (effectivePrompt prompt).length) := not_lt.mpr h4
  simp only [buildAnalyzeRequest]
  rw [if_neg e1, if_neg e2, if_neg e3, if_neg e4]

theorem analyzeImage_mem_requests (jp : String → Option Json) (pp : Json → String)
    (model : String) (net : RequestBody → UpstreamResponse)
    (imageData mimeType prompt : String) (opts : AnalyzeOptions) (req : RequestBody)
    (hmem : req ∈ (analyzeImage jp pp model net imageData mimeType prompt opts).2) :
    req.maxTokens = min (jsOrInt opts.maxTokens 4000) 8000 ∧
    req.temperature = jsOrRat opts.temperature (1/10) ∧
    req.responseFormatJson = (opts.format == some "json") := by
  unfold analyzeImage at hmem
  cases hb : buildAnalyzeRequest model imageData mimeType prompt opts with
  | error m =>
    rw [hb] at hmem
    simp at hmem
  | ok r =>
    rw [hb] at hmem
    simp only [List.mem_singleton] at hmem
    subst hmem
    simp only [buildAnalyzeRequest] at hb
    split_ifs at hb
    simp only [Except.ok.injEq] at hb
    subst hb
    exact ⟨rfl, rfl, rfl⟩

/-! ## Claim C3 -/

/-- Claim C3: every request `analyzeImage` actually sends carries
max_tokens 4000 when the caller supplied none, never exceeds 8000 (with
values above 8000 clamped to 8000), carries temperature 0.1 when the
caller supplied none, and carries the json_object response-format hint
exactly when the caller requested JSON output. -/
theorem adapter_request_params (jp : String → Option Json) (pp : Json → String)
    (model : String) (net : RequestBody → UpstreamResponse)
    (imageData mimeType prompt : String) (opts : AnalyzeOptions) (req : RequestBody)
    (hmem : req ∈ (analyzeImage jp pp model net imageData mimeType prompt opts).2) :
    (opts.maxTokens = none → req.maxTokens = 4000) ∧
    req.maxTokens ≤ 8000 ∧
    (∀ t, opts.maxTokens = some t → 8000 < t → req.maxTokens = 8000) ∧
    (opts.temperature = none → req.temperature = 1/10) ∧
    (req.responseFormatJson = true ↔ opts.format = some "json") := by
  obtain ⟨hmt, htemp, hfmt⟩ :=
    analyzeImage_mem_requests jp pp model net imageData mimeType prompt opts req hmem
  refine ⟨?_, ?_, ?_, ?_, ?_⟩
  · intro h
    rw [hmt, h]
    decide
  · rw [hmt]
    exact min_le_right _ _
  · intro t ht h8
    rw [hmt, ht]
    simp only [jsOrInt]
    rw [if_neg (by omega)]
    exact min_eq_right (le_of_lt h8)
  · intro h
    rw [htemp, h]
    rfl
  · rw [hfmt]
    exact beq_iff_eq

/-- Claim C3, witness: with no options supplied, the single request sent
carries the defaults. -/
theorem adapter_request_params_witness :
    reqDefaults.maxTokens = 4000 ∧ reqDefaults.maxTokens ≤ 8000 ∧
    reqDefaults.temperature = 1/10 ∧
    (reqDefaults.responseFormatJson = true ↔ optsNone.format = some "json") := by
  have h := adapter_request_params jsonParseModel jsonPrettyModel "m" (netConst respNoChoices)
    "AAAA" "image/png" "" optsNone reqDefaults (List.mem_singleton.mpr rfl)
  exact ⟨h.1 rfl, h.2.1, h.2.2.2.1 rfl, h.2.2.2.2⟩

/-! ## Claim C4 -/

/-- Claim C4: an empty image payload, an absent (empty) MIME type, a
base64 payload longer than 20*1024*1024 characters, or an effective
prompt longer than 10000 characters makes analyzeImage return a failure
with a non-empty message, and no network request is issued (the sent-
request list is empty). -/
theorem adapter_preflight_failfast (jp : String → Option Json) (pp : Json → String)
    (model : String) (net : RequestBody → UpstreamResponse)
    (imageData mimeType prompt : String) (opts : AnalyzeOptions)
    (h : imageData = "" ∨ mimeType = "" ∨ 20 * 1024 * 1024 < imageData.length ∨
      10000 < (effectivePrompt prompt).length) :
    (analyzeImage jp pp model net imageData mimeType prompt opts).2 = [] ∧
    isDescriptiveFailure (analyzeImage jp pp model net imageData mimeType prompt opts).1
      = true := by
  obtain ⟨msg, hmsg, hne⟩ : ∃ msg,
      buildAnalyzeRequest model imageData mimeType prompt opts = .error msg ∧ msg ≠ "" := by
    simp only [buildAnalyzeRequest]
    by_cases e1 : imageData.isEmpty = true
    · exact ⟨_, by rw [if_pos e1], by decide⟩
    · by_cases e2 : mimeType.isEmpty = true
      · exact ⟨_, by rw [if_neg e1, if_pos e2], by decide⟩
      · by_cases e3 : 20 * 1024 * 1024 < imageData.length
        · exact ⟨_, by rw [if_neg e1, if_neg e2, if_pos e3],
            str_append_ne _ _ (str_append_ne _ _ (by decide))⟩
        · by_cases e4 : 10000 < (effectivePrompt prompt).length
          · exact ⟨_, by rw [if_neg e1, if_neg e2, if_neg e3, if_pos e4],
              str_append_ne _ _ (str_append_ne _ _ (by decide))⟩
          · exfalso
            rcases h with rfl | rfl | hl | hp
            · exact e1 rfl
            · exact e2 rfl
            · exact e3 hl
            · exact e4 hp
  unfold analyzeImage
  rw [hmsg]
  refine ⟨rfl, ?_⟩
  simp only [isDescriptiveFailure, bne_iff_ne, ne_eq, decide_not]
  simp [hne]

/-- Claim C4, witness: the empty image payload fails fast with no
request sent. -/
theorem adapter_preflight_failfast_witness :
    (analyzeImage jsonParseModel jsonPrettyModel "m" (netConst respNoChoices)
      "" "image/png" "" optsNone).2 = [] ∧
    isDescriptiveFailure (analyzeImage jsonParseModel jsonPrettyModel "m"
      (netConst respNoChoices) "" "image/png" "" optsNone).1 = true :=
  adapter_preflight_failfast jsonParseModel jsonPrettyModel "m" (netConst respNoChoices)
    "" "image/png" "" optsNone (Or.inl rfl)

/-! ## Claim C5 -/

/-- Claim C5: past the pre-flight checks, an upstream response with zero
choices makes analyzeImage return the failure No response from model, and
a first choice whose message is absent or carries no (or empty) content
makes it return the failure Empty response from model; both are returned
values of the total function, so no exception escapes. -/
theorem adapter_empty_response_failure (jp : String → Option Json) (pp : Json → String)
    (model : String) (imageData mimeType prompt : String) (opts : AnalyzeOptions)
    (resp : UpstreamResponse)
    (h1 : imageData ≠ "") (h2 : mimeType ≠ "")
    (h3 : imageData.length ≤ 20 * 1024 * 1024)
    (h4 : (effectivePrompt prompt).length ≤ 10000) :
    (resp.choices = [] →
      (analyzeImage jp pp model (netConst resp) imageData mimeType prompt opts).1 =
        .failure "No response from model") ∧
    (∀ c rest, resp.choices = c :: rest →
      c.message = none ∨ c.message = some { content := none } ∨
        c.message = some { content := some "" } →
      (analyzeImage jp pp model (netConst resp) imageData mimeType prompt opts).1 =
        .failure "Empty response from model") := by
  have hok := buildAnalyzeRequest_ok model imageData mimeType prompt opts h1 h2 h3 h4
  unfold analyzeImage
  rw [hok]
  constructor
  · intro hc
    simp [handleAnalyzeResponse, netConst, hc]
  · intro c rest hc hm
    rcases hm with hm | hm | hm
    · simp [handleAnalyzeResponse, netConst, hc, hm]
    · simp [handleAnalyzeResponse, netConst, hc, hm]
    · simp only [handleAnalyzeResponse, netConst, hc, hm, List.head?]
      rfl

/-- Claim C5, witness: the two failure shapes evaluated concretely. -/
theorem adapter_empty_response_failure_witness :
    (analyzeImage jsonParseModel jsonPrettyModel "m" (netConst respNoChoices)
      "AAAA" "image/png" "" optsNone).1 = .failure "No response from model" ∧
    (analyzeImage jsonParseModel jsonPrettyModel "m" (netConst respNoMessage)
      "AAAA" "image/png" "" optsNone).1 = .failure "Empty response from model" := by
  constructor
  · exact (adapter_empty_response_failure jsonParseModel jsonPrettyModel "m"
      "AAAA" "image/png" "" optsNone respNoChoices
      (by decide) (by decide) (by decide) (by decide)).1 rfl
  · exact (adapter_empty_response_failure jsonParseModel jsonPrettyModel "m"
      "AAAA" "image/png" "" optsNone respNoMessage
      (by decide) (by decide) (by decide) (by decide)).2
      { message := none } [] rfl (Or.inl rfl)

/-! ## Claim C6 -/

/-- Claim C6: when JSON output was requested and the upstream delivered a
non-empty content string, analyzeImage returns Success; if the content
parses as JSON the structured value is the parsed value and the text its
pretty-printed form, and if it does not parse the text is the raw content
and the structured value is the single-key object analysis: content; the
function is total, so neither path raises. -/
theorem adapter_json_output_handling (jp : String → Option Json) (pp : Json → String)
    (model : String) (imageData mimeType prompt : String) (opts : AnalyzeOptions)
    (resp : UpstreamResponse) (content : String) (rest : List UpstreamChoice)
    (h1 : imageData ≠ "") (h2 : mimeType ≠ "")
    (h3 : imageData.length ≤ 20 * 1024 * 1024)
    (h4 : (effectivePrompt prompt).length ≤ 10000)
    (hfmt : opts.format = some "json")
    (hch : resp.choices = { message := some { content := some content } } :: rest)
    (hne : content ≠ "") :
    (∀ v, jp content = some v →
      (analyzeImage jp pp model (netConst resp) imageData mimeType prompt opts).1 =
        .success (pp v) v model (resp.usage.map fun u =>
          { promptTokens := u.prompt_tokens, completionTokens := u.completion_tokens,
            totalTokens := u.total_tokens })) ∧
    (jp content = none →
      (analyzeImage jp pp model (netConst resp) imageData mimeType prompt opts).1 =
        .success content (Json.obj [("analysis", Json.str content)]) model
          (resp.usage.map fun u =>
            { promptTokens := u.prompt_tokens, completionTokens := u.completion_tokens,
              totalTokens := u.total_tokens })) := by
  have hok := buildAnalyzeRequest_ok model imageData mimeType prompt opts h1 h2 h3 h4
  have hie : content.isEmpty = false := by
    rw [Bool.eq_false_iff]
    intro hc
    exact hne ((String.isEmpty_iff _).mp hc)
  unfold analyzeImage
  rw [hok]
  constructor
  · intro v hv
    simp [handleAnalyzeResponse, netConst, hch, hie, hfmt, hv]
  · intro hv
    simp [handleAnalyzeResponse, netConst, hch, hie, hfmt, hv]

/-- Claim C6, witness: both branches evaluated with the concrete JSON
builtin models on the object with one field a mapped to 1 and on a
non-JSON string. -/
theorem adapter_json_output_handling_witness :
    (analyzeImage jsonParseModel jsonPrettyModel "m" (netConst respJsonContent)
      "AAAA" "image/png" "" optsJson).1 =
      .success "\x7b\n  \"a\": 1\n\x7d" (Json.obj [("a", Json.num 1)]) "m" none := by
  have h := (adapter_json_output_handling jsonParseModel jsonPrettyModel "m"
    "AAAA" "image/png" "" optsJson respJsonContent "\x7b\"a\":1\x7d" []
    (by decide) (by decide) (by decide) (by decide) rfl rfl (by decide)).1
    (Json.obj [("a", Json.num 1)]) rfl
  exact h

/-! ## Claim C9 -/

/-- Claim C9: a caller-supplied maxTokens of 0 or temperature of 0 is
falsy in JavaScript, so the defaults win: every request actually sent
carries max_tokens 4000 and temperature 0.1 — a caller cannot request a
temperature of exactly 0. -/
theorem adapter_zero_option_defaults (jp : String → Option Json) (pp : Json → String)
    (model : String) (net : RequestBody → UpstreamResponse)
    (imageData mimeType prompt : String) (fmt : Option String) (req : RequestBody)
    (hmem : req ∈ (analyzeImage jp pp model net imageData mimeType prompt
      { format := fmt, maxTokens := some 0, temperature := some 0 }).2) :
    req.maxTokens = 4000 ∧ req.temperature = 1/10 := by
  obtain ⟨hmt, htemp, _⟩ := analyzeImage_mem_requests jp pp model net imageData mimeType
    prompt { format := fmt, maxTokens := some 0, temperature := some 0 } req hmem
  constructor
  · rw [hmt]
    show jsOrInt (some 0) 4000 ⊓ 8000 = 4000
    decide
  · rw [htemp]
    show jsOrRat (some 0) (1/10) = 1/10
    simp [jsOrRat]

/-- Claim C9, witness: zero options on a concrete call produce the
default request. -/
theorem adapter_zero_option_defaults_witness :
    reqDefaults.maxTokens = 4000 ∧ reqDefaults.temperature = 1/10 :=
  adapter_zero_option_defaults jsonParseModel jsonPrettyModel "m" (netConst respNoChoices)
    "AAAA" "image/png" "" none reqDefaults (List.mem_singleton.mpr rfl)

theorem renderToolError_isError (msg : String) : (renderToolError msg).isError = true := by
  unfold renderToolError
  split_ifs <;> rfl

/-! ## Claim C7 -/

/-- Claim C7 (amended): for every normalized image whose MIME type passed
the supported-set check and whose size exceeds the configured maximum
image size (default 10485760 bytes), the dispatch handler returns exactly
the error-flagged result whose text names the size and the limit
(Error: Image size size exceeds maximum allowed size limit), and the
Adapter is never invoked — the recorded invocation list is empty.  (An
oversized image with an unsupported MIME type is also rejected without
invoking the Adapter, but its error text names the type, not the size;
see the counterexample.) -/
theorem dispatch_size_gate
    (adapter : NormalizedImage → String → AnalyzeOptions → AnalysisOutcome)
    (maxImageSize : Option Int) (img : NormalizedImage)
    (argsPrompt : Option String) (opts : AnalyzeOptions)
    (hmime : isValidImageType img.mimeType = true)
    (hsize : jsOrInt maxImageSize 10485760 < (img.size : Int)) :
    handleAnalyzeImage adapter maxImageSize (.ok img) argsPrompt opts =
      (renderToolError ("Image size " ++ toString img.size ++
        " exceeds maximum allowed size " ++ toString (jsOrInt maxImageSize 10485760)), []) ∧
    (handleAnalyzeImage adapter maxImageSize (.ok img) argsPrompt opts).1.isError = true := by
  have hni : ¬(isValidImageType img.mimeType = false) := by
    rw [hmime]
    simp
  have heq : handleAnalyzeImage adapter maxImageSize (.ok img) argsPrompt opts =
      (renderToolError ("Image size " ++ toString img.size ++
        " exceeds maximum allowed size " ++ toString (jsOrInt maxImageSize 10485760)), []) := by
    simp only [handleAnalyzeImage]
    rw [if_neg hni, if_pos hsize]
  refine ⟨heq, ?_⟩
  rw [heq]
  exact renderToolError_isError _

/-- Claim C7, witness: the amended claim on a concrete oversized PNG with
the default size limit. -/
theorem dispatch_size_gate_witness :
    handleAnalyzeImage adapterStub none (.ok imgBigPng) none optsNone =
      ({ text := "Error: Image size 99999999 exceeds maximum allowed size 10485760",
         isError := true }, []) := by
  have h := (dispatch_size_gate adapterStub none imgBigPng none optsNone
    (by decide) (by decide)).1
  exact h

/-- Claim C7, counterexample to the claim as stated: an oversized image
whose MIME type is unsupported is rejected by the earlier type check, so
the handler's error text names the type rather than the size and the
limit (though the result is error-flagged and the Adapter is still never
invoked). -/
theorem dispatch_size_gate_cex :
    jsOrInt none 10485760 < (imgBigUnsupported.size : Int) ∧
    (handleAnalyzeImage adapterStub none (.ok imgBigUnsupported) none optsNone).1.isError
        = true ∧
    (handleAnalyzeImage adapterStub none (.ok imgBigUnsupported) none optsNone).1.text
        = "Error: Unsupported image type: text/plain" ∧
    containsStr
      (handleAnalyzeImage adapterStub none (.ok imgBigUnsupported) none optsNone).1.text
      (toString imgBigUnsupported.size) = false ∧
    (handleAnalyzeImage adapterStub none (.ok imgBigUnsupported) none optsNone).2 = [] := by
  refine ⟨by decide, rfl, rfl, by decide, rfl⟩
